import Mathlib

/-!
# Verification of the xrp reverse proxy core

A shallow embedding of the response-processing, caching and plugin-management
core of the `xrp` HTML/XML-aware reverse proxy, together with theorems settling
the specification claims about it.

Conventions of the embedding:
* Pure Go functions become Lean functions over explicit state.
* Go `error` results become `Except`/`Option` results with named error
  constructors that record the data the Go error message carries.
* Machine integers are modelled as `Nat`/`Int` (no overflow is relevant here:
  the Go code uses `int64` sizes far below 2^63).
* Dynamically loaded plugin symbols are modelled by their method set: Go
  interface satisfaction is structural, so a type assertion
  `symbol.(xrpPlugin.Plugin)` succeeds exactly when the dynamic type exposes
  both capability methods, `symbol.(xrpPlugin.HTMLPlugin)` exactly when it
  exposes `ProcessHTMLTree`, and `symbol.(xrpPlugin.XMLPlugin)` exactly when it
  exposes `ProcessXMLTree`.
* The file system, `plugin.Open`/`Lookup`, URL parsing, Redis client creation,
  and the HTML/XML parse/transform/render primitives are modelled as explicit
  environments (records of functions), so the control flow of the repository's
  own code is embedded exactly while external effects stay parameters.
-/

namespace Xrp

/-! ## Configuration data model (internal/config/config.go) -/

/-- `config.RedisConfig`: cache-backend connection info. -/
structure RedisConfig where
  Addr : String
  Password : String
  DB : Int
deriving DecidableEq, Repr

/-- `config.PluginConfig`: a plugin reference, identity `(path, name)`. -/
structure PluginConfig where
  Path : String
  Name : String
deriving DecidableEq, Repr

/-- `config.MimeTypeConfig`: one mime rule: a mime type and its ordered plugin list. -/
structure MimeTypeConfig where
  MimeType : String
  Plugins : List PluginConfig
deriving DecidableEq, Repr

/-- `config.Config`: the proxy configuration. -/
structure Config where
  BackendURL : String
  Redis : RedisConfig
  MimeTypes : List MimeTypeConfig
  CookieDenylist : List String
  RequestTimeout : Int
  MaxResponseSizeMB : Nat
deriving DecidableEq, Repr

/-- `Config.IsHTMLXMLMimeType`: true iff some configured mime rule names `mimeType`. -/
def Config.IsHTMLXMLMimeType (c : Config) (mimeType : String) : Bool :=
  c.MimeTypes.any (fun mt => mt.MimeType == mimeType)

/-- `Config.GetPluginsForMimeType`: plugin list of the first rule for `mimeType`
(Go returns `nil`, i.e. the empty list, when no rule matches). -/
def Config.GetPluginsForMimeType (c : Config) (mimeType : String) : List PluginConfig :=
  match c.MimeTypes.find? (fun mt => mt.MimeType == mimeType) with
  | some mt => mt.Plugins
  | none => []

/-! ## Plugin manager (internal/plugins/manager.go) -/

/-- A dynamically loaded plugin symbol, modelled by its method set plus an
identity tag distinguishing distinct loaded instances. Go interface
satisfaction is structural over the dynamic type's method set. -/
structure PluginSymbol where
  hasProcessHTMLTree : Bool
  hasProcessXMLTree : Bool
  id : Nat
deriving DecidableEq, Repr

/-- A symbol satisfies the two-method `xrpPlugin.Plugin` interface iff it
exposes both capability methods. -/
def implementsPlugin (p : PluginSymbol) : Bool :=
  p.hasProcessHTMLTree && p.hasProcessXMLTree

/-- A symbol satisfies `xrpPlugin.HTMLPlugin` iff it exposes `ProcessHTMLTree`. -/
def implementsHTMLPlugin (p : PluginSymbol) : Bool :=
  p.hasProcessHTMLTree

/-- A symbol satisfies `xrpPlugin.XMLPlugin` iff it exposes `ProcessXMLTree`. -/
def implementsXMLPlugin (p : PluginSymbol) : Bool :=
  p.hasProcessXMLTree

/-- `plugins.LoadedPlugin`: a registered plugin instance with its identity. -/
structure LoadedPlugin where
  plugin : PluginSymbol
  path : String
  name : String
deriving DecidableEq, Repr

/-- Errors of the plugin load path (`internal/plugins/manager.go`).
Constructors carry the data the corresponding Go error message formats. -/
inductive SecurityError where
  /-- the plugin file does not exist -/
  | notFound : SecurityError
  /-- "plugin file cannot be a symlink" -/
  | symlink : SecurityError
  /-- "plugin file is world-writable" -/
  | worldWritable : SecurityError
  /-- "plugin file is not in allowed directories" -/
  | outsideAllowedDirs : SecurityError
deriving DecidableEq, Repr

inductive LoadError where
  /-- "failed to open plugin file" (plugin.Open failed) -/
  | openFailed (path : String) : LoadError
  /-- "failed to find symbol '<name>' in plugin" -/
  | symbolNotFound (name : String) : LoadError
  /-- "symbol '<name>' does not implement Plugin interface"
  (the `symbol.(xrpPlugin.Plugin)` assertion failed; names the symbol only) -/
  | notPluginInterface (name : String) : LoadError
  /-- "plugin does not implement Process...Tree method required for MIME type
  <mimeType>" from `validatePlugin` (names the mime type) -/
  | interfaceError (mimeType : String) : LoadError
  /-- a `validatePluginSecurity` failure -/
  | security (e : SecurityError) : LoadError
deriving DecidableEq, Repr

/-- The result of `plugin.Open` on one plugin file: its exported symbols. -/
def PluginLib := String → Option PluginSymbol

/-- Environment for `plugin.Open`: which paths open, and to what library. -/
structure PluginEnv where
  openLib : String → Option PluginLib

/-- `Manager.validatePlugin` (internal/plugins/manager.go, lines 110–128):
for an HTML-class mime type, accept when the instance satisfies
`xrpPlugin.HTMLPlugin`, else when it satisfies the full `xrpPlugin.Plugin`;
symmetrically for the XML class. The Go parameter already has interface type
`xrpPlugin.Plugin`, so a symbol reaching this function exposes both methods. -/
def validatePlugin (p : PluginSymbol) (mimeType : String) : Except LoadError Unit :=
  let isHTML := mimeType == "text/html" || mimeType == "application/xhtml+xml"
  if isHTML then
    if !implementsHTMLPlugin p then
      if !implementsPlugin p then
        .error (.interfaceError mimeType)
      else
        .ok ()
    else
      .ok ()
  else
    if !implementsXMLPlugin p then
      if !implementsPlugin p then
        .error (.interfaceError mimeType)
      else
        .ok ()
    else
      .ok ()

/-- `Manager.loadPlugin` (internal/plugins/manager.go, lines 83–108):
`plugin.Open`, then `Lookup(name)`, then the `symbol.(xrpPlugin.Plugin)`
type assertion (requiring both capability methods), then `validatePlugin`. -/
def loadPlugin (env : PluginEnv) (path name mimeType : String) :
    Except LoadError LoadedPlugin :=
  match env.openLib path with
  | none => .error (.openFailed path)
  | some lib =>
    match lib name with
    | none => .error (.symbolNotFound name)
    | some sym =>
      if implementsPlugin sym then
        match validatePlugin sym mimeType with
        | .error e => .error e
        | .ok _ => .ok { plugin := sym, path := path, name := name }
      else
        .error (.notPluginInterface name)

/-- The plugin registry: a Go `map[string]*LoadedPlugin`, modelled as an
association list where insertion prepends (so lookup finds the most recent
binding, matching map overwrite semantics). -/
def Registry := List (String × LoadedPlugin)
deriving DecidableEq, Repr

/-- Go map lookup. -/
def lookupReg (reg : Registry) (key : String) : Option LoadedPlugin :=
  match (List.find? (fun kv => kv.1 == key) reg) with
  | some kv => some kv.2
  | none => none

/-- Go map insertion (overwrites any previous binding for `key`). -/
def insertReg (reg : Registry) (key : String) (lp : LoadedPlugin) : Registry :=
  ((key, lp) :: reg : List (String × LoadedPlugin))

/-- The registry key: `pluginConfig.Path + "/" + pluginConfig.Name`. -/
def pluginKey (path name : String) : String :=
  path ++ "/" ++ name

/-- `Manager.GetPlugin` (internal/plugins/manager.go, lines 130–136). -/
def GetPlugin (reg : Registry) (path name : String) : Option LoadedPlugin :=
  lookupReg reg (pluginKey path name)

/-- The `(mimeType, pluginConfig)` pairs `Manager.LoadPlugins` iterates, in
iteration order (rules in order, plugins in order within each rule). -/
def configPluginPairs (cfg : Config) : List (String × PluginConfig) :=
  cfg.MimeTypes.flatMap (fun mt => mt.Plugins.map (fun pc => (mt.MimeType, pc)))

/-- The loop body of `Manager.LoadPlugins`, parameterized by the single-plugin
load function so that the same loop can be instantiated with `loadPlugin`
(the code under src) and with the security-checked variant. For each pair:
reuse the instance registered in the OLD registry under the same key if any,
otherwise load; any failure aborts the whole loop. -/
def loadPluginsAux (loadOne : String → String → String → Except LoadError LoadedPlugin)
    (oldReg : Registry) :
    List (String × PluginConfig) → Registry → Except LoadError Registry
  | [], acc => .ok acc
  | (mimeType, pc) :: rest, acc =>
    let key := pluginKey pc.Path pc.Name
    match lookupReg oldReg key with
    | some existing => loadPluginsAux loadOne oldReg rest (insertReg acc key existing)
    | none =>
      match loadOne pc.Path pc.Name mimeType with
      | .error e => .error e
      | .ok lp => loadPluginsAux loadOne oldReg rest (insertReg acc key lp)

/-- `Manager.LoadPlugins` (internal/plugins/manager.go, lines 54–81): build a
new candidate registry from scratch; on any single failure return the error
(the Go method then leaves `m.plugins` untouched); on success the candidate
becomes the registry. -/
def LoadPlugins (env : PluginEnv) (oldReg : Registry) (cfg : Config) :
    Except LoadError Registry :=
  loadPluginsAux (loadPlugin env) oldReg (configPluginPairs cfg) []

/-! ## Security validation of plugin files

`manager_test.go` (TestValidatePluginSecurity) tests a method
`Manager.validatePluginSecurity`, but the revision of `manager.go` defining it
is absent from the snapshot (the `loadPlugin` present under src calls
`plugin.Open` directly). The missing check is therefore modelled from the
spec and its tests. -/

/-- What the security check observes about a plugin file. -/
structure PluginFileInfo where
  isSymlink : Bool
  worldWritable : Bool
  inAllowedDir : Bool
deriving DecidableEq, Repr

/-- The file system as seen by the security check: `none` means the path does
not resolve to a file. -/
def FileSystem := String → Option PluginFileInfo

/-- Modelled from the spec: `Manager.validatePluginSecurity` (implementation
absent from src; only its tests are present). "`SecureOpen(path)`: fails with
a security error if the path is a symbolic link, if the file is
world-writable, or if its resolved absolute path falls outside a small
allow-listed set of plugin directories"; the tests additionally pin a failure
for a nonexistent file. -/
def validatePluginSecurity (fs : FileSystem) (path : String) : Option SecurityError :=
  match fs path with
  | none => some .notFound
  | some fi =>
    if fi.isSymlink then some .symlink
    else if fi.worldWritable then some .worldWritable
    else if !fi.inAllowedDir then some .outsideAllowedDirs
    else none

/-- Modelled from the spec: the plugin load of the revision matching
`manager_test.go`, which runs `validatePluginSecurity` before opening the
plugin ("`SecureOpen` → `Validate` → register"); a security failure is fatal
to that plugin's load. -/
def loadPluginSecure (fs : FileSystem) (env : PluginEnv) (path name mimeType : String) :
    Except LoadError LoadedPlugin :=
  match validatePluginSecurity fs path with
  | some e => .error (.security e)
  | none => loadPlugin env path name mimeType

/-- Modelled from the spec: `Manager.LoadPlugins` with the security check in
place, reusing the loop of the src revision. -/
def loadPluginsSecure (fs : FileSystem) (env : PluginEnv) (oldReg : Registry)
    (cfg : Config) : Except LoadError Registry :=
  loadPluginsAux (loadPluginSecure fs env) oldReg (configPluginPairs cfg) []

/-! ## Responses and the cache engine

The cache implementation (`internal/cache/cache.go`) is absent from the
snapshot; only `cache_test.go` is present. Its functions are modelled from the
spec (and checked against the shapes the tests pin). -/

/-- An HTTP response as the proxy's response hook sees it, restricted to the
fields the embedded code reads or writes. Headers the code never touches are
elided; `SetCookie` is the first `Set-Cookie` value (`""` when the header is
absent, as Go's `Header.Get` reports); `CacheControl` is the response's
`Cache-Control` directives in parsed form; `ContentLength` is `-1` when
unknown, as in Go's `http.Response`. `ReqMethod`/`ReqCookies` are the method
and cookie names of the originating request (`resp.Request`). `XRPVersion` and
`XRPCache` are the `X-XRP-Version` and `X-XRP-Cache` response headers. -/
structure Response where
  StatusCode : Nat
  ContentType : String
  SetCookie : String
  CacheControl : List String
  Body : List Nat
  ContentLength : Int
  ReqMethod : String
  ReqCookies : List String
  XRPVersion : Option String
  XRPCache : Option String
deriving DecidableEq, Repr

/-- `cache.Entry`: a serialized cache record (captured headers elided; the
embedded claims never read them). `Timestamp`, `Expires` are absolute seconds;
`MaxAge` is seconds. -/
structure Entry where
  Body : List Nat
  StatusCode : Nat
  Timestamp : Int
  MaxAge : Option Int
  Expires : Option Int
deriving DecidableEq, Repr

/-- Modelled from the spec: `cache.IsCacheable` (implementation absent from
src; only `cache_test.go` is present). "true iff the method is GET, the status
is exactly 200, the response carries no `Set-Cookie` header, the response's
`Cache-Control` contains none of no-store/no-cache/private"; the denylist
clause of the spec's sentence is implemented by the caller `shouldCache`
(which is under src), since the Go signature `IsCacheable(resp)` has no access
to the configuration. -/
def IsCacheable (resp : Response) : Bool :=
  resp.ReqMethod == "GET" && resp.StatusCode == 200 && resp.SetCookie == "" &&
  !(resp.CacheControl.contains "no-store") &&
  !(resp.CacheControl.contains "no-cache") &&
  !(resp.CacheControl.contains "private")

/-- The fallback TTL in seconds. `cache_test.go` (TestCalculateTTL, "default
TTL") pins it to one hour. -/
def defaultTTL : Int := 3600

/-- Modelled from the spec: `cache.calculateTTL` (implementation absent from
src; only `cache_test.go` is present). "`max-age` (seconds, parsed from
`Cache-Control`) takes priority over an explicit `Expires` timestamp
(TTL = expiry − entry timestamp), which takes priority over a fixed fallback
TTL used only when neither header was present." -/
def calculateTTL (e : Entry) : Int :=
  match e.MaxAge with
  | some a => a
  | none =>
    match e.Expires with
    | some t => t - e.Timestamp
    | none => defaultTTL

/-- A request, restricted to what the cache key derivation reads. -/
structure Request where
  path : String
  query : String
  headers : List (String × String)
deriving DecidableEq, Repr

/-- The value of a request header (`""` when absent, as Go's `Header.Get`). -/
def Request.getHeader (req : Request) (key : String) : String :=
  match req.headers.lookup key with
  | some v => v
  | none => ""

/-- A cache key: a deterministic derivation from path, query and the
Vary-relevant header values. -/
structure CacheKey where
  path : String
  query : String
  varyValues : List String
deriving DecidableEq, Repr

/-- Modelled from the spec: `cache.generateKey` (implementation absent from
src; only `cache_test.go` is present). "derived deterministically from the URL
path plus the query string plus a representation of the request-header values
relevant to any `Vary` declaration on a prior stored entry for that path".
`varyEnv` gives, per path, the header names a prior stored entry's `Vary`
declared. -/
def generateKey (varyEnv : String → List String) (req : Request) : CacheKey :=
  { path := req.path
    query := req.query
    varyValues := (varyEnv req.path).map (fun h => req.getHeader h) }

/-! ## Proxy orchestrator (internal/proxy/proxy.go) -/

/-- Leading-whitespace trim over a character list (one side of Go's
`strings.TrimSpace`). -/
def trimLeftChars (cs : List Char) : List Char :=
  cs.dropWhile (fun c => c.isWhitespace)

/-- Go's `strings.TrimSpace` over a character list. -/
def trimChars (cs : List Char) : List Char :=
  ((trimLeftChars cs).reverse |> trimLeftChars).reverse

/-- `extractMimeType` (internal/proxy/proxy.go, lines 313–318): the part of
the `Content-Type` value before the first `;`, with surrounding whitespace
trimmed (`strings.Index` + `strings.TrimSpace`, here over the character
list so that the definition computes by kernel reduction). -/
def extractMimeType (contentType : String) : String :=
  ⟨trimChars (contentType.toList.takeWhile (fun c => c ≠ ';'))⟩

/-- `isHTMLMimeType` (internal/proxy/proxy.go, lines 320–322). -/
def isHTMLMimeType (mimeType : String) : Bool :=
  mimeType == "text/html" || mimeType == "application/xhtml+xml"

/-- `Proxy.hasDenylistedCookies` (internal/proxy/proxy.go, lines 285–294):
some denylist name matches some cookie name of the originating request. -/
def hasDenylistedCookies (cfg : Config) (resp : Response) : Bool :=
  cfg.CookieDenylist.any (fun denyName =>
    resp.ReqCookies.any (fun c => c == denyName))

/-- `Proxy.shouldCache` (internal/proxy/proxy.go, lines 273–283). -/
def shouldCache (cfg : Config) (resp : Response) : Bool :=
  if resp.SetCookie != "" then false
  else if hasDenylistedCookies cfg resp then false
  else IsCacheable resp

/-- Per-request processing errors of the document pipeline
(internal/proxy/proxy.go). Constructors carry the identities the Go error
messages format. -/
inductive ProcError where
  /-- "failed to parse HTML" / "failed to parse XML" -/
  | parseError : ProcError
  /-- "failed to render HTML" / "failed to serialize XML" -/
  | renderError : ProcError
  /-- "plugin not found: <path>/<name>" -/
  | pluginNotFound (path name : String) : ProcError
  /-- "plugin <name> failed: ..." -/
  | pluginFailed (name : String) : ProcError
deriving DecidableEq, Repr

/-- The HTML/XML parse, plugin-invocation and render primitives, modelled as
an environment. Documents are opaque handles (`Nat`); `none` is the failure
the corresponding Go call reports. Plugin invocation depends on the loaded
symbol and mutates the document handle in place (functionally: returns the
mutated handle). The request context/URL arguments are folded into the
environment. -/
structure DocEnv where
  parseHTML : List Nat → Option Nat
  invokeHTML : PluginSymbol → Nat → Option Nat
  renderHTML : Nat → Option (List Nat)
  parseXML : List Nat → Option Nat
  invokeXML : PluginSymbol → Nat → Option Nat
  renderXML : Nat → Option (List Nat)

/-- The plugin loop of `Proxy.processHTMLResponse`: look each configured
plugin up in the registry (absence is a per-request error) and apply it in
configured order; the first failure aborts the chain. -/
def runPluginsHTML (denv : DocEnv) (reg : Registry) :
    List PluginConfig → Nat → Except ProcError Nat
  | [], doc => .ok doc
  | pc :: rest, doc =>
    match GetPlugin reg pc.Path pc.Name with
    | none => .error (.pluginNotFound pc.Path pc.Name)
    | some lp =>
      match denv.invokeHTML lp.plugin doc with
      | none => .error (.pluginFailed pc.Name)
      | some doc2 => runPluginsHTML denv reg rest doc2

/-- The plugin loop of `Proxy.processXMLResponse`. -/
def runPluginsXML (denv : DocEnv) (reg : Registry) :
    List PluginConfig → Nat → Except ProcError Nat
  | [], doc => .ok doc
  | pc :: rest, doc =>
    match GetPlugin reg pc.Path pc.Name with
    | none => .error (.pluginNotFound pc.Path pc.Name)
    | some lp =>
      match denv.invokeXML lp.plugin doc with
      | none => .error (.pluginFailed pc.Name)
      | some doc2 => runPluginsXML denv reg rest doc2

/-- `Proxy.processHTMLResponse` (internal/proxy/proxy.go, lines 217–243):
`html.Parse`, the plugin loop, `html.Render`. -/
def processHTMLResponse (denv : DocEnv) (reg : Registry) (body : List Nat)
    (pcs : List PluginConfig) : Except ProcError (List Nat) :=
  match denv.parseHTML body with
  | none => .error .parseError
  | some doc =>
    match runPluginsHTML denv reg pcs doc with
    | .error e => .error e
    | .ok doc2 =>
      match denv.renderHTML doc2 with
      | none => .error .renderError
      | some out => .ok out

/-- `Proxy.processXMLResponse` (internal/proxy/proxy.go, lines 245–271). -/
def processXMLResponse (denv : DocEnv) (reg : Registry) (body : List Nat)
    (pcs : List PluginConfig) : Except ProcError (List Nat) :=
  match denv.parseXML body with
  | none => .error .parseError
  | some doc =>
    match runPluginsXML denv reg pcs doc with
    | .error e => .error e
    | .ok doc2 =>
      match denv.renderXML doc2 with
      | none => .error .renderError
      | some out => .ok out

/-- `Proxy.processResponse` (internal/proxy/proxy.go, lines 154–195).
`maxSize := MaxResponseSizeMB * 1024 * 1024`. When `ContentLength` is known
and exceeds `maxSize`, the WHOLE body is read (`io.ReadAll`) and returned
unprocessed. Otherwise at most `maxSize + 1` bytes are read
(`io.LimitReader`); if that still exceeds `maxSize` the read prefix — a
truncation of a longer body — is returned unprocessed. Within bound, the
configured plugin list runs via the HTML or XML pipeline. -/
def processResponse (cfg : Config) (denv : DocEnv) (reg : Registry)
    (resp : Response) (mimeType : String) : Except ProcError (List Nat) :=
  let maxSize : Int := (cfg.MaxResponseSizeMB * 1024 * 1024 : Nat)
  if resp.ContentLength > 0 && decide (resp.ContentLength > maxSize) then
    .ok resp.Body
  else
    let body := resp.Body.take (cfg.MaxResponseSizeMB * 1024 * 1024 + 1)
    if body.length > cfg.MaxResponseSizeMB * 1024 * 1024 then
      .ok body
    else
      let pcs := cfg.GetPluginsForMimeType mimeType
      if pcs.isEmpty then
        .ok body
      else if isHTMLMimeType mimeType then
        processHTMLResponse denv reg body pcs
      else
        processXMLResponse denv reg body pcs

/-- The number of body bytes `Proxy.processResponse` reads from the upstream
body, following the same branching: the whole body in the known-oversize
branch (`io.ReadAll(resp.Body)`), at most `maxSize + 1` otherwise
(`io.LimitReader(resp.Body, maxSize+1)`). -/
def processResponseBytesRead (cfg : Config) (resp : Response) : Nat :=
  let maxSize : Int := (cfg.MaxResponseSizeMB * 1024 * 1024 : Nat)
  if resp.ContentLength > 0 && decide (resp.ContentLength > maxSize) then
    resp.Body.length
  else
    min (cfg.MaxResponseSizeMB * 1024 * 1024 + 1) resp.Body.length

/-- `Proxy.processAndCacheResponse` (internal/proxy/proxy.go, lines 197–215):
process, then UNCONDITIONALLY build a cache entry from the processed body and
attempt the best-effort `cache.Set` (a store failure is only logged, so the
attempted write is the entry itself). `now` is the entry creation timestamp. -/
def processAndCacheResponse (cfg : Config) (denv : DocEnv) (reg : Registry)
    (now : Int) (resp : Response) (mimeType : String) :
    Except ProcError (List Nat × Entry) :=
  match processResponse cfg denv reg resp mimeType with
  | .error e => .error e
  | .ok processedBody =>
    .ok (processedBody,
      { Body := processedBody
        StatusCode := resp.StatusCode
        Timestamp := now
        MaxAge := none
        Expires := none })

/-- `Proxy.modifyResponse` (internal/proxy/proxy.go, lines 115–152): always
stamp `X-XRP-Version`; pass through (stamped) when the mime type is not
configured or the status is not 200; otherwise stamp `X-XRP-Cache: MISS`,
process (caching the result when the request is a GET and `shouldCache`), and
replace the body (adjusting `Content-Length`). A processing failure is
returned as the hook's error. The second component of a success is the
attempted cache write, if any. -/
def modifyResponse (version : String) (cfg : Config) (denv : DocEnv)
    (reg : Registry) (now : Int) (resp : Response) :
    Except ProcError (Response × Option Entry) :=
  let mimeType := extractMimeType resp.ContentType
  let resp1 := { resp with XRPVersion := some version }
  if !(cfg.IsHTMLXMLMimeType mimeType) then
    .ok (resp1, none)
  else if resp1.StatusCode != 200 then
    .ok (resp1, none)
  else
    let resp2 := { resp1 with XRPCache := some "MISS" }
    if resp2.ReqMethod == "GET" && shouldCache cfg resp2 then
      match processAndCacheResponse cfg denv reg now resp2 mimeType with
      | .error e => .error e
      | .ok (body, entry) =>
        .ok ({ resp2 with Body := body, ContentLength := (body.length : Int) }, some entry)
    else
      match processResponse cfg denv reg resp2 mimeType with
      | .error e => .error e
      | .ok body =>
        .ok ({ resp2 with Body := body, ContentLength := (body.length : Int) }, none)

/-- What the client receives for a backend response. -/
inductive ClientOutcome where
  /-- the (possibly modified) response was written to the client -/
  | served (r : Response) : ClientOutcome
  /-- 502 Bad Gateway from the reverse proxy's error handler -/
  | badGateway : ClientOutcome
deriving DecidableEq, Repr

/-- The fate of a backend response under `net/http/httputil.ReverseProxy`
semantics: `New`/`UpdateConfig` set `rp.ModifyResponse = p.modifyResponse` and
never set `rp.ErrorHandler`, so when `modifyResponse` returns an error the
default handler logs it and responds `502 Bad Gateway`, discarding the
upstream response. -/
def handleBackendResponse (version : String) (cfg : Config) (denv : DocEnv)
    (reg : Registry) (now : Int) (resp : Response) : ClientOutcome × Option Entry :=
  match modifyResponse version cfg denv reg now resp with
  | .ok (r, w) => (.served r, w)
  | .error _ => (.badGateway, none)

/-- What `Proxy.serveCachedResponse` writes to the client. -/
structure ServedResponse where
  StatusCode : Nat
  Body : List Nat
  XRPVersion : Option String
  XRPCache : Option String
deriving DecidableEq, Repr

/-- `Proxy.serveCachedResponse` (internal/proxy/proxy.go, lines 296–311):
replay the stored status and body and stamp `X-XRP-Version` and
`X-XRP-Cache: HIT` (the stored headers are replayed too; they are elided from
`Entry` as no claim reads them). -/
def serveCachedResponse (version : String) (entry : Entry) : ServedResponse :=
  { StatusCode := entry.StatusCode
    Body := entry.Body
    XRPVersion := some version
    XRPCache := some "HIT" }

/-! ## Configuration hot-reload (Proxy.UpdateConfig) -/

/-- A cache client handle, distinguished by identity. -/
structure CacheClient where
  id : Nat
deriving DecidableEq, Repr

/-- The mutable proxy state: configuration, backend target (of the
`reverseProxy`), cache client handle, and plugin registry. -/
structure ProxyState where
  config : Config
  target : String
  cache : CacheClient
  plugins : Registry
deriving DecidableEq, Repr

inductive UpdateError where
  /-- "invalid backend URL" -/
  | invalidBackendURL : UpdateError
  /-- "failed to create new cache client" -/
  | cacheCreateFailed : UpdateError
  /-- "failed to reload plugins" -/
  | pluginLoadFailed (e : LoadError) : UpdateError
deriving DecidableEq, Repr

/-- Environment for `UpdateConfig`: `url.Parse`, `cache.New` and the plugin
load environment. -/
structure ProxyEnv where
  parseURL : String → Option String
  cacheNew : RedisConfig → Option CacheClient
  pluginEnv : PluginEnv

/-- The tail of `Proxy.UpdateConfig` after the cache-client step: reload
plugins (on failure return, keeping the state as it stands at this point),
then swap in the new configuration and backend target. -/
def updateConfigRest (env : ProxyEnv) (s : ProxyState) (cfg : Config)
    (target : String) : Option UpdateError × ProxyState :=
  match LoadPlugins env.pluginEnv s.plugins cfg with
  | .error e => (some (.pluginLoadFailed e), s)
  | .ok reg =>
    (none, { config := cfg, target := target, cache := s.cache, plugins := reg })

/-- `Proxy.UpdateConfig` (internal/proxy/proxy.go, lines 69–98), under the
write lock: parse the backend URL (failure → return, state untouched);
if the Redis configuration changed, create a new cache client (failure →
return, state untouched) and ASSIGN IT to `p.cache` immediately; then reload
plugins (failure → return, with the cache assignment already applied); then
assign the new configuration and backend target. The returned pair is the Go
method's error result and the state as left behind. -/
def UpdateConfig (env : ProxyEnv) (s : ProxyState) (cfg : Config) :
    Option UpdateError × ProxyState :=
  match env.parseURL cfg.BackendURL with
  | none => (some .invalidBackendURL, s)
  | some target =>
    if s.config.Redis = cfg.Redis then
      updateConfigRest env s cfg target
    else
      match env.cacheNew cfg.Redis with
      | none => (some .cacheCreateFailed, s)
      | some newCache => updateConfigRest env { s with cache := newCache } cfg target

/-! ## Concrete instances used by counterexamples and witnesses -/

/-- A Redis configuration. -/
def rc0 : RedisConfig := { Addr := "localhost:6379", Password := "", DB := 0 }

/-- A document environment in which every parse/invoke/render call fails. -/
def denv0 : DocEnv :=
  { parseHTML := fun _ => none
    invokeHTML := fun _ _ => none
    renderHTML := fun _ => none
    parseXML := fun _ => none
    invokeXML := fun _ _ => none
    renderXML := fun _ => none }

/-- A document environment in which parse/render are identity-like and every
plugin invocation succeeds, returning the document unchanged. -/
def denvOk : DocEnv :=
  { parseHTML := fun _ => some 0
    invokeHTML := fun _ d => some d
    renderHTML := fun _ => some []
    parseXML := fun _ => some 0
    invokeXML := fun _ d => some d
    renderXML := fun _ => some [] }

/-- C1 scenario: one `application/xml` rule with one plugin. -/
def cfg1 : Config :=
  { BackendURL := "http://backend"
    Redis := rc0
    MimeTypes := [{ MimeType := "application/xml", Plugins := [{ Path := "p", Name := "XPlug" }] }]
    CookieDenylist := []
    RequestTimeout := 30
    MaxResponseSizeMB := 1 }

/-- C1 scenario: a 200 XML response with a small body (the `Set-Cookie` header
makes it non-cacheable, so the plain processing path runs). -/
def resp1c : Response :=
  { StatusCode := 200
    ContentType := "application/xml"
    SetCookie := "s=1"
    CacheControl := []
    Body := [60, 120, 62]
    ContentLength := 3
    ReqMethod := "GET"
    ReqCookies := []
    XRPVersion := none
    XRPCache := none }

/-- C2 scenario: one `text/html` rule, 1 MB size ceiling. -/
def cfg2 : Config :=
  { BackendURL := "http://backend"
    Redis := rc0
    MimeTypes := [{ MimeType := "text/html", Plugins := [{ Path := "p", Name := "HPlug" }] }]
    CookieDenylist := []
    RequestTimeout := 30
    MaxResponseSizeMB := 1 }

/-- C2 scenario: an upstream body of 2·2^20 bytes, over the 1 MB ceiling. -/
def bigBody : List Nat := List.replicate 2097152 0

/-- C2 scenario: a cacheable 200 `text/html` GET response carrying `bigBody`
with unknown `Content-Length`. -/
def resp2c : Response :=
  { StatusCode := 200
    ContentType := "text/html"
    SetCookie := ""
    CacheControl := []
    Body := bigBody
    ContentLength := -1
    ReqMethod := "GET"
    ReqCookies := []
    XRPVersion := none
    XRPCache := none }

/-- C2 scenario: the same oversized response with an accurate
`Content-Length`. -/
def resp2k : Response :=
  { resp2c with ContentLength := 2097152 }

/-- C3 scenario: the active configuration. -/
def cfg3old : Config :=
  { BackendURL := "http://old"
    Redis := { Addr := "redis-1:6379", Password := "", DB := 0 }
    MimeTypes := []
    CookieDenylist := []
    RequestTimeout := 30
    MaxResponseSizeMB := 10 }

/-- C3 scenario: a reload target with a CHANGED Redis configuration and one
plugin reference whose file does not open. -/
def cfg3new : Config :=
  { BackendURL := "http://new"
    Redis := { Addr := "redis-2:6379", Password := "", DB := 0 }
    MimeTypes := [{ MimeType := "text/html", Plugins := [{ Path := "p", Name := "NPlug" }] }]
    CookieDenylist := []
    RequestTimeout := 30
    MaxResponseSizeMB := 10 }

/-- C3 scenario: URL parsing succeeds, cache creation succeeds (handle 2),
every plugin open fails. -/
def env3 : ProxyEnv :=
  { parseURL := fun u => some u
    cacheNew := fun _ => some { id := 2 }
    pluginEnv := { openLib := fun _ => none } }

/-- C3 scenario: the prior state (cache handle 1). -/
def s3 : ProxyState :=
  { config := cfg3old
    target := "http://old"
    cache := { id := 1 }
    plugins := [] }

/-- C3 witness scenario: a reload keeping the Redis configuration, failing at
plugin load. -/
def cfg3same : Config :=
  { cfg3new with Redis := cfg3old.Redis }

/-- C4 scenario: the file at path "evil.so" is a symlink. -/
def fs4 : FileSystem :=
  fun path =>
    if path = "evil.so" then
      some { isSymlink := true, worldWritable := false, inAllowedDir := true }
    else
      none

/-- C4 scenario: every plugin file opens to a library exposing a
full-interface symbol named "EPlug". -/
def env4 : PluginEnv :=
  { openLib := fun _ =>
      some (fun n =>
        if n = "EPlug" then
          some { hasProcessHTMLTree := true, hasProcessXMLTree := true, id := 4 }
        else
          none) }

/-- C4 scenario: one `text/html` rule referencing the symlinked plugin. -/
def cfg4 : Config :=
  { BackendURL := "http://backend"
    Redis := rc0
    MimeTypes := [{ MimeType := "text/html", Plugins := [{ Path := "evil.so", Name := "EPlug" }] }]
    CookieDenylist := []
    RequestTimeout := 30
    MaxResponseSizeMB := 10 }

/-- C5 scenario: a symbol exposing only the HTML-processing method. -/
def sym5h : PluginSymbol := { hasProcessHTMLTree := true, hasProcessXMLTree := false, id := 5 }

/-- C5 scenario: a symbol exposing only the XML-processing method
(the element-tree capability only). -/
def sym5x : PluginSymbol := { hasProcessHTMLTree := false, hasProcessXMLTree := true, id := 6 }

/-- C5 scenario: the plugin file "p.so" exposes both symbols. -/
def env5 : PluginEnv :=
  { openLib := fun path =>
      if path = "p.so" then
        some (fun n =>
          if n = "HtmlOnly" then some sym5h
          else if n = "XmlOnly" then some sym5x
          else none)
      else
        none }

/-- C9 scenario: only `text/html` is configured. -/
def cfg9 : Config :=
  { BackendURL := "http://backend"
    Redis := rc0
    MimeTypes := [{ MimeType := "text/html", Plugins := [{ Path := "p", Name := "HPlug" }] }]
    CookieDenylist := []
    RequestTimeout := 30
    MaxResponseSizeMB := 10 }

/-- C9 scenario: a JSON response, passed through by the hook. -/
def resp9 : Response :=
  { StatusCode := 200
    ContentType := "application/json"
    SetCookie := ""
    CacheControl := []
    Body := [123, 125]
    ContentLength := 2
    ReqMethod := "GET"
    ReqCookies := []
    XRPVersion := none
    XRPCache := none }

/-- C10 scenario: the symbol registered for reference ("a/b", "c"). -/
def sym10a : PluginSymbol := { hasProcessHTMLTree := true, hasProcessXMLTree := true, id := 1 }

/-- C10 scenario: the symbol registered for reference ("a", "b/c"). -/
def sym10b : PluginSymbol := { hasProcessHTMLTree := true, hasProcessXMLTree := true, id := 2 }

/-- C10 scenario: path "a/b" exposes symbol "c"; path "a" exposes symbol
"b/c". -/
def env10 : PluginEnv :=
  { openLib := fun path =>
      if path = "a/b" then some (fun n => if n = "c" then some sym10a else none)
      else if path = "a" then some (fun n => if n = "b/c" then some sym10b else none)
      else none }

/-- C10 scenario: one rule referencing both distinct identities. -/
def cfg10 : Config :=
  { BackendURL := "http://backend"
    Redis := rc0
    MimeTypes := [{ MimeType := "text/html",
                    Plugins := [{ Path := "a/b", Name := "c" }, { Path := "a", Name := "b/c" }] }]
    CookieDenylist := []
    RequestTimeout := 30
    MaxResponseSizeMB := 10 }

/-! ## Helper lemmas -/

/-- Any symbol satisfying the full `Plugin` interface passes `validatePlugin`
for every mime type: the per-class check can only reject a symbol that lacks
the full interface, and such a symbol never reaches it. -/
theorem validatePlugin_ok_of_implementsPlugin (p : PluginSymbol) (mimeType : String)
    (h : implementsPlugin p = true) : validatePlugin p mimeType = .ok () := by
  have h1 : p.hasProcessHTMLTree = true := (Bool.and_eq_true _ _ ▸ h).1
  have h2 : p.hasProcessXMLTree = true := (Bool.and_eq_true _ _ ▸ h).2
  unfold validatePlugin
  simp [implementsHTMLPlugin, implementsXMLPlugin, h1, h2]

/-- When processing succeeds, `processAndCacheResponse` returns the processed
body together with the cache entry it unconditionally attempts to store. -/
theorem processAndCacheResponse_eq_of_ok (cfg : Config) (denv : DocEnv) (reg : Registry)
    (now : Int) (resp : Response) (mime : String) (b : List Nat)
    (h : processResponse cfg denv reg resp mime = .ok b) :
    processAndCacheResponse cfg denv reg now resp mime =
      .ok (b, { Body := b, StatusCode := resp.StatusCode, Timestamp := now,
                MaxAge := none, Expires := none }) := by
  unfold processAndCacheResponse
  rw [h]

/-- If some configured plugin reference is absent from the old registry and
its load fails, the whole `LoadPlugins` loop returns an error. -/
theorem loadPluginsAux_error_of_mem
    (loadOne : String → String → String → Except LoadError LoadedPlugin)
    (oldReg : Registry) (mimeType : String) (pc : PluginConfig) (e0 : LoadError)
    (hfail : loadOne pc.Path pc.Name mimeType = .error e0) :
    ∀ (pairs : List (String × PluginConfig)) (acc : Registry),
      (mimeType, pc) ∈ pairs →
      lookupReg oldReg (pluginKey pc.Path pc.Name) = none →
      ∃ e, loadPluginsAux loadOne oldReg pairs acc = .error e := by
  intro pairs
  induction pairs with
  | nil =>
    intro acc hmem hold
    exact absurd hmem (List.not_mem_nil _)
  | cons hd tl ih =>
    intro acc hmem hold
    rcases List.mem_cons.mp hmem with heq | htl
    · subst heq
      rw [loadPluginsAux, hold, hfail]
      exact ⟨e0, rfl⟩
    · obtain ⟨m, q⟩ := hd
      rw [loadPluginsAux]
      cases h1 : lookupReg oldReg (pluginKey q.Path q.Name) with
      | some existing => exact ih _ htl hold
      | none =>
        cases h2 : loadOne q.Path q.Name m with
        | error e' => exact ⟨e', rfl⟩
        | ok lp => exact ih _ htl hold

end Xrp

namespace Xrp

/-! ## The claims -/

/-- C7: for every cache entry, the TTL is `max-age` when parsed from
`Cache-Control`; otherwise expiry minus the entry's creation timestamp when an
explicit `Expires` is present; otherwise the fixed fallback TTL. In
particular, when both `max-age` and `Expires` are present the TTL equals the
value derived from `max-age`. -/
theorem C7_ttl_priority (e : Entry) :
    (∀ a, e.MaxAge = some a → calculateTTL e = a) ∧
    (e.MaxAge = none → ∀ t, e.Expires = some t → calculateTTL e = t - e.Timestamp) ∧
    (e.MaxAge = none → e.Expires = none → calculateTTL e = defaultTTL) ∧
    (∀ a t, e.MaxAge = some a → e.Expires = some t → calculateTTL e = a) := by
  refine ⟨?_, ?_, ?_, ?_⟩ <;> intros <;> simp_all [calculateTTL]

/-- Witness for C7 at a concrete entry carrying both `max-age` (60 s) and
`Expires`: the TTL is the `max-age` value. -/
theorem C7_ttl_priority_witness :
    calculateTTL
      { Body := [], StatusCode := 200, Timestamp := 0, MaxAge := some 60, Expires := some 100 } = 60 :=
  (C7_ttl_priority _).2.2.2 60 100 rfl rfl

/-- C8: requests sharing path, query and all Vary-relevant header values get
equal cache keys; requests differing in path or in query get different keys. -/
theorem C8_cache_key (varyEnv : String → List String) (r1 r2 : Request) :
    ((r1.path = r2.path ∧ r1.query = r2.query ∧
        ∀ h ∈ varyEnv r1.path, r1.getHeader h = r2.getHeader h) →
      generateKey varyEnv r1 = generateKey varyEnv r2) ∧
    ((r1.path ≠ r2.path ∨ r1.query ≠ r2.query) →
      generateKey varyEnv r1 ≠ generateKey varyEnv r2) := by
  constructor
  · rintro ⟨hp, hq, hv⟩
    have hv2 : ∀ h ∈ varyEnv r2.path, r1.getHeader h = r2.getHeader h := by
      rw [← hp]
      exact hv
    unfold generateKey
    rw [hp, hq, List.map_congr_left hv2]
  · rintro (hp | hq) heq
    · exact hp (congrArg CacheKey.path heq)
    · exact hq (congrArg CacheKey.query heq)

/-- Witness for C8: two concrete requests sharing path, query and the
Vary-relevant `Accept` value get the same key; changing the path changes the
key. -/
theorem C8_cache_key_witness :
    (generateKey (fun _ => ["Accept"])
        { path := "/t", query := "q=1", headers := [("Accept", "x")] } =
      generateKey (fun _ => ["Accept"])
        { path := "/t", query := "q=1", headers := [("Accept", "x"), ("Other", "y")] }) ∧
    (generateKey (fun _ => ["Accept"]) { path := "/t", query := "q=1", headers := [] } ≠
      generateKey (fun _ => ["Accept"]) { path := "/u", query := "q=1", headers := [] }) := by
  constructor
  · exact (C8_cache_key _ _ _).1 ⟨rfl, rfl, by decide⟩
  · exact (C8_cache_key _ _ _).2 (Or.inl (by decide))

/-- C6: a response is judged cacheable iff the request method is GET, the
status is exactly 200, the response carries no `Set-Cookie` header, its
`Cache-Control` contains none of no-store/no-cache/private, and the
originating request carries no cookie whose name is on the configured
denylist. -/
theorem C6_cacheable_iff (cfg : Config) (resp : Response) :
    shouldCache cfg resp = true ↔
      (resp.ReqMethod = "GET" ∧ resp.StatusCode = 200 ∧ resp.SetCookie = "" ∧
       "no-store" ∉ resp.CacheControl ∧ "no-cache" ∉ resp.CacheControl ∧
       "private" ∉ resp.CacheControl ∧
       ∀ c ∈ resp.ReqCookies, c ∉ cfg.CookieDenylist) := by
  unfold shouldCache hasDenylistedCookies IsCacheable
  by_cases hsc : resp.SetCookie = ""
  · simp_all [List.any_eq_true, List.elem_iff]
    tauto
  · simp_all [List.any_eq_true, List.elem_iff]

/-- Witness for C6 at a concrete cacheable response: a GET 200 response with
no Set-Cookie, a clean Cache-Control, and no denylisted request cookie is
judged cacheable. -/
theorem C6_cacheable_iff_witness :
    shouldCache
      { BackendURL := "http://b", Redis := rc0, MimeTypes := [], CookieDenylist := ["session"],
        RequestTimeout := 30, MaxResponseSizeMB := 10 }
      { StatusCode := 200, ContentType := "text/html", SetCookie := "",
        CacheControl := ["public"], Body := [], ContentLength := 0, ReqMethod := "GET",
        ReqCookies := ["prefs"], XRPVersion := none, XRPCache := none } = true :=
  (C6_cacheable_iff _ _).mpr
    ⟨rfl, rfl, rfl, by decide, by decide, by decide, by decide⟩

/-- C10: the registry key `path + "/" + name` is not injective: the distinct
identities ("a/b", "c") and ("a", "b/c") share the key "a/b/c", `GetPlugin`
returns the same registry entry for both, and after `LoadPlugins` on a
configuration referencing both, both lookups yield the single plugin that was
registered last — loaded under the identity ("a", "b/c"). -/
theorem C10_key_collision :
    pluginKey "a/b" "c" = pluginKey "a" "b/c" ∧
    ¬("a/b" = "a" ∧ "c" = "b/c") ∧
    (∀ reg : Registry, GetPlugin reg "a/b" "c" = GetPlugin reg "a" "b/c") ∧
    (∃ reg : Registry, LoadPlugins env10 [] cfg10 = .ok reg ∧
      GetPlugin reg "a/b" "c" = some { plugin := sym10b, path := "a", name := "b/c" } ∧
      GetPlugin reg "a" "b/c" = some { plugin := sym10b, path := "a", name := "b/c" }) := by
  refine ⟨rfl, by decide, fun reg => rfl, ⟨_, rfl, by decide, by decide⟩⟩

/-- Witness for C10 at the empty registry: the two colliding identities
resolve to the same lookup result. -/
theorem C10_key_collision_witness :
    GetPlugin ([] : Registry) "a/b" "c" = GetPlugin ([] : Registry) "a" "b/c" :=
  C10_key_collision.2.2.1 ([] : Registry)

/-- C5 (corrected): plugin loading does NOT validate per mime-type class.
The `symbol.(xrpPlugin.Plugin)` assertion in `loadPlugin` requires every
symbol to expose BOTH capability methods before `validatePlugin` ever runs,
so a plugin under a `text/html` rule exposing only the element-tree (XML)
capability fails the load with the error naming the symbol only — not with
the per-class interface error naming the mime type — and a plugin exposing
only the HTML capability, which the claim's per-class rule would accept for
`text/html`, fails the load in exactly the same way. -/
theorem C5_counterexample :
    loadPlugin env5 "p.so" "XmlOnly" "text/html" =
      .error (.notPluginInterface "XmlOnly") ∧
    (∀ mt, LoadError.notPluginInterface "XmlOnly" ≠ .interfaceError mt) ∧
    loadPlugin env5 "p.so" "HtmlOnly" "text/html" =
      .error (.notPluginInterface "HtmlOnly") := by
  refine ⟨rfl, fun mt => by simp, rfl⟩

/-- C5 (amended): for every plugin whose file opens and whose symbol is
found, the load succeeds iff the symbol exposes both capability methods
(the full `Plugin` interface), independent of the mime type's class; when a
method is missing the load fails with the interface-assertion error naming
the plugin symbol (not the mime type). The per-class validation never rejects
a symbol that passed the assertion. -/
theorem C5_full_interface_required (env : PluginEnv) (lib : PluginLib)
    (path name mimeType : String) (sym : PluginSymbol)
    (hopen : env.openLib path = some lib) (hsym : lib name = some sym) :
    (loadPlugin env path name mimeType = .ok { plugin := sym, path := path, name := name } ↔
      (sym.hasProcessHTMLTree = true ∧ sym.hasProcessXMLTree = true)) ∧
    (¬(sym.hasProcessHTMLTree = true ∧ sym.hasProcessXMLTree = true) →
      loadPlugin env path name mimeType = .error (.notPluginInterface name)) := by
  unfold loadPlugin
  rw [hopen]
  by_cases hfull : implementsPlugin sym = true
  · have hok := validatePlugin_ok_of_implementsPlugin sym mimeType hfull
    simp [hsym, hfull, hok, implementsPlugin]
  · have hand : ¬(sym.hasProcessHTMLTree = true ∧ sym.hasProcessXMLTree = true) := by
      intro hc
      exact hfull (by simp [implementsPlugin, hc.1, hc.2])
    simp [hsym, hfull, hand]

/-- Witness for C5 (amended) at the concrete HTML-only symbol under
`text/html`: its load fails with the interface-assertion error naming the
symbol. -/
theorem C5_full_interface_required_witness :
    loadPlugin env5 "p.so" "HtmlOnly" "text/html" =
      .error (.notPluginInterface "HtmlOnly") :=
  (C5_full_interface_required env5
      (fun n => if n = "HtmlOnly" then some sym5h else if n = "XmlOnly" then some sym5x else none)
      "p.so" "HtmlOnly" "text/html" sym5h rfl rfl).2 (by decide)

/-- C4 (spec-modelled): a plugin whose file is a symbolic link, or
world-writable, or outside the allow-listed directories (or missing), fails
its load with a security error, and when a configured rule references it
(and it is not carried over from the previous registry) the whole plugin
reload aborts with an error. -/
theorem C4_secure_open (fs : FileSystem) (env : PluginEnv) (oldReg : Registry)
    (cfg : Config) (mimeType : String) (pc : PluginConfig)
    (hbad : fs pc.Path = none ∨ ∃ fi, fs pc.Path = some fi ∧
      (fi.isSymlink = true ∨ fi.worldWritable = true ∨ fi.inAllowedDir = false))
    (hmem : (mimeType, pc) ∈ configPluginPairs cfg)
    (hold : lookupReg oldReg (pluginKey pc.Path pc.Name) = none) :
    (∃ se, loadPluginSecure fs env pc.Path pc.Name mimeType = .error (.security se)) ∧
    (∃ e, loadPluginsSecure fs env oldReg cfg = .error e) := by
  have hsec : ∃ se, validatePluginSecurity fs pc.Path = some se := by
    rcases hbad with hnone | ⟨fi, hfi, hcond⟩
    · exact ⟨.notFound, by simp [validatePluginSecurity, hnone]⟩
    · unfold validatePluginSecurity
      rw [hfi]
      by_cases h1 : fi.isSymlink = true
      · exact ⟨.symlink, by simp [h1]⟩
      · by_cases h2 : fi.worldWritable = true
        · exact ⟨.worldWritable, by simp [h1, h2]⟩
        · have h3 : fi.inAllowedDir = false := by
            rcases hcond with hc | hc | hc
            · exact absurd hc h1
            · exact absurd hc h2
            · exact hc
          exact ⟨.outsideAllowedDirs, by simp [h1, h2, h3]⟩
  obtain ⟨se, hse⟩ := hsec
  have hload : loadPluginSecure fs env pc.Path pc.Name mimeType = .error (.security se) := by
    unfold loadPluginSecure
    rw [hse]
  refine ⟨⟨se, hload⟩, ?_⟩
  exact loadPluginsAux_error_of_mem (loadPluginSecure fs env) oldReg mimeType pc
    (.security se) hload (configPluginPairs cfg) [] hmem hold

/-- Witness for C4 at the concrete symlinked plugin file "evil.so": its load
fails with a security error and the reload of a configuration referencing it
aborts. -/
theorem C4_secure_open_witness :
    (∃ se, loadPluginSecure fs4 env4 "evil.so" "EPlug" "text/html" = .error (.security se)) ∧
    (∃ e, loadPluginsSecure fs4 env4 [] cfg4 = .error e) :=
  C4_secure_open fs4 env4 [] cfg4 "text/html" { Path := "evil.so", Name := "EPlug" }
    (Or.inr ⟨_, rfl, Or.inl rfl⟩) (by decide) rfl

/-- C3 (corrected): a reload that changes the Redis configuration, succeeds
in creating the new cache client, and then fails at plugin loading leaves the
proxy state HALF-UPDATED: the cache client handle has already been replaced
while configuration, backend target and plugin registry still hold the prior
values — refuting the claim that the entire prior state remains exactly as it
was on every failed reload. -/
theorem C3_counterexample :
    (UpdateConfig env3 s3 cfg3new).1 = some (.pluginLoadFailed (.openFailed "p")) ∧
    (UpdateConfig env3 s3 cfg3new).2.cache ≠ s3.cache ∧
    (UpdateConfig env3 s3 cfg3new).2.config = s3.config ∧
    (UpdateConfig env3 s3 cfg3new).2.target = s3.target ∧
    (UpdateConfig env3 s3 cfg3new).2.plugins = s3.plugins := by
  refine ⟨rfl, ?_, rfl, rfl, rfl⟩
  intro h
  exact absurd (congrArg CacheClient.id h) (by decide)

/-- C3 (amended): on every failed reload the configuration, backend target
and plugin registry remain exactly as before; the cache client handle also
remains unless the Redis configuration changed and the failure occurred only
after the new cache client had been created (at plugin loading) — and when
the failure is the invalid backend URL or the cache-client creation itself,
the whole state is untouched. -/
theorem C3_failed_reload (env : ProxyEnv) (s : ProxyState) (cfg : Config)
    (e : UpdateError) (h : (UpdateConfig env s cfg).1 = some e) :
    (UpdateConfig env s cfg).2.config = s.config ∧
    (UpdateConfig env s cfg).2.target = s.target ∧
    (UpdateConfig env s cfg).2.plugins = s.plugins ∧
    (s.config.Redis = cfg.Redis → (UpdateConfig env s cfg).2 = s) ∧
    ((e = .invalidBackendURL ∨ e = .cacheCreateFailed) → (UpdateConfig env s cfg).2 = s) := by
  unfold UpdateConfig at h ⊢
  revert h
  cases hu : env.parseURL cfg.BackendURL with
  | none =>
    intro h
    exact ⟨rfl, rfl, rfl, fun _ => rfl, fun _ => rfl⟩
  | some target =>
    intro h
    dsimp only at h ⊢
    by_cases hr : s.config.Redis = cfg.Redis
    · rw [if_pos hr] at h ⊢
      unfold updateConfigRest at h ⊢
      revert h
      cases hl : LoadPlugins env.pluginEnv s.plugins cfg with
      | error e' =>
        intro h
        exact ⟨rfl, rfl, rfl, fun _ => rfl, fun _ => rfl⟩
      | ok reg =>
        intro h
        simp at h
    · rw [if_neg hr] at h ⊢
      revert h
      cases hc : env.cacheNew cfg.Redis with
      | none =>
        intro h
        exact ⟨rfl, rfl, rfl, fun hq => absurd hq hr, fun _ => rfl⟩
      | some newCache =>
        intro h
        dsimp only at h ⊢
        unfold updateConfigRest at h ⊢
        dsimp only at h ⊢
        revert h
        cases hl : LoadPlugins env.pluginEnv s.plugins cfg with
        | error e' =>
          intro h
          have he : e = .pluginLoadFailed e' := by
            injection h with h'
            exact h'.symm
          subst he
          refine ⟨rfl, rfl, rfl, fun hq => absurd hq hr, ?_⟩
          intro hor
          rcases hor with hor | hor <;> simp at hor
        | ok reg =>
          intro h
          simp at h

/-- Witness for C3 (amended) at a concrete reload that keeps the Redis
configuration and fails at plugin loading: the whole state is unchanged. -/
theorem C3_failed_reload_witness :
    (UpdateConfig env3 s3 cfg3same).2 = s3 :=
  ((C3_failed_reload env3 s3 cfg3same (.pluginLoadFailed (.openFailed "p")) rfl).2.2.2.1) rfl

/-- C9 (corrected): a pass-through response — here a 200 response with
content type `application/json`, which is on no configured mime rule — leaves
the response hook carrying the version header but NO cache-status header,
refuting the claim that every response carries a cache-status header that is
exactly HIT or MISS. -/
theorem C9_counterexample :
    modifyResponse "v1" cfg9 denv0 [] 0 resp9 =
      .ok ({ resp9 with XRPVersion := some "v1" }, none) ∧
    ({ resp9 with XRPVersion := some "v1" } : Response).XRPCache = none := by
  exact ⟨rfl, rfl⟩

/-- C9 (amended): every response leaving the response hook successfully
carries the version header; the cache-status header is set to exactly MISS
when the content type is on a configured mime rule and the status is 200, and
is otherwise left as the upstream sent it (absent unless the upstream set
one); responses served from the cache carry the version header and
cache-status exactly HIT. -/
theorem C9_stamped_headers (version : String) (cfg : Config) (denv : DocEnv)
    (reg : Registry) (now : Int) (resp r' : Response) (w : Option Entry)
    (h : modifyResponse version cfg denv reg now resp = .ok (r', w)) :
    (r'.XRPVersion = some version ∧
      r'.XRPCache =
        (if cfg.IsHTMLXMLMimeType (extractMimeType resp.ContentType) && (resp.StatusCode == 200)
         then some "MISS" else resp.XRPCache)) ∧
    (∀ entry, (serveCachedResponse version entry).XRPVersion = some version ∧
      (serveCachedResponse version entry).XRPCache = some "HIT") := by
  refine ⟨?_, fun entry => ⟨rfl, rfl⟩⟩
  unfold modifyResponse at h
  dsimp only at h
  split at h
  next hm =>
    injection h with h1
    obtain ⟨hr', hw⟩ := Prod.mk.inj h1
    subst hr'
    rw [Bool.not_eq_eq_eq_not, Bool.not_true] at hm
    simp [hm]
  next hm =>
    rw [Bool.not_eq_true, Bool.not_eq_eq_eq_not, Bool.not_false] at hm
    split at h
    next hst =>
      injection h with h1
      obtain ⟨hr', hw⟩ := Prod.mk.inj h1
      subst hr'
      have hst' : (resp.StatusCode == 200) = false := by
        simpa using hst
      simp [hst']
    next hst =>
      have hst' : (resp.StatusCode == 200) = true := by
        have := Bool.not_eq_true _ ▸ hst
        simpa using this
      split at h
      · split at h
        · exact absurd h (by simp)
        · injection h with h1
          obtain ⟨hr', hw⟩ := Prod.mk.inj h1
          subst hr'
          simp [hm, hst']
      · split at h
        · exact absurd h (by simp)
        · injection h with h1
          obtain ⟨hr', hw⟩ := Prod.mk.inj h1
          subst hr'
          simp [hm, hst']

/-- Witness for C9 (amended) at the concrete pass-through JSON response: the
hook output carries the version header, and the cache-status header equals
the upstream's (absent). -/
theorem C9_stamped_headers_witness :
    ({ resp9 with XRPVersion := some "v1" } : Response).XRPVersion = some "v1" :=
  ((C9_stamped_headers "v1" cfg9 denv0 [] 0 resp9
    { resp9 with XRPVersion := some "v1" } none rfl).1).1

/-- C1 (code bug): when pipeline processing fails — here a parse error on a
configured `application/xml` 200 response — `modifyResponse` RETURNS the
error, so the reverse proxy's default error handler answers 502 Bad Gateway
and the upstream response is discarded: the client request fails instead of
receiving the original unmodified upstream response, contradicting the
repository's own SPEC.md ("should be logged, and the original response should
be served"). -/
theorem C1_pipeline_error_fails_request :
    modifyResponse "v1" cfg1 denv0 [] 0 resp1c = .error .parseError ∧
    handleBackendResponse "v1" cfg1 denv0 [] 0 resp1c = (.badGateway, none) ∧
    (∀ r, ClientOutcome.badGateway ≠ ClientOutcome.served r) := by
  have hmt : extractMimeType resp1c.ContentType = "application/xml" := rfl
  have h1 : modifyResponse "v1" cfg1 denv0 [] 0 resp1c = .error .parseError := by
    unfold modifyResponse
    rw [hmt]
    norm_num [cfg1, resp1c, Config.IsHTMLXMLMimeType, shouldCache, IsCacheable,
      hasDenylistedCookies]
    unfold processResponse
    norm_num [Config.GetPluginsForMimeType, isHTMLMimeType, processXMLResponse, denv0]
    rw [if_neg (by decide : ¬("s=1" = ""))]
    rw [if_neg (by decide :
      ¬("application/xml" = "text/html" ∨ "application/xml" = "application/xhtml+xml"))]
  refine ⟨h1, ?_, fun r h => by cases h⟩
  unfold handleBackendResponse
  rw [h1]

/-- C2 (code bug): a cacheable GET `text/html` 200 response whose 2 MB body
exceeds the 1 MB ceiling and whose `Content-Length` is unknown is TRUNCATED
to `maxSize + 1` bytes (the `io.LimitReader` prefix is returned as the new
body, not the original bytes), and `processAndCacheResponse` still attempts a
cache write carrying that truncated body; and with an accurate oversized
`Content-Length`, the whole body — more than `MaxResponseSizeBytes + 1`
bytes — is read (`io.ReadAll`). All three contradict the claim and the
repository's README ("simply returned to the client without modification or
caching"). -/
theorem C2_size_ceiling_bug :
    (processAndCacheResponse cfg2 denv0 [] 0
        { resp2c with XRPVersion := some "v1", XRPCache := some "MISS" } "text/html" =
      .ok (List.replicate 1048577 0,
        { Body := List.replicate 1048577 0
          StatusCode := 200
          Timestamp := 0
          MaxAge := none
          Expires := none })) ∧
    resp2c.Body = List.replicate 2097152 0 ∧
    shouldCache cfg2 { resp2c with XRPVersion := some "v1", XRPCache := some "MISS" } = true ∧
    List.replicate 1048577 (0 : Nat) ≠ List.replicate 2097152 0 ∧
    processResponseBytesRead cfg2 resp2k = 2097152 ∧
    2097152 > 1 * 1024 * 1024 + 1 := by
  refine ⟨?_, rfl, rfl, ?_, ?_, by norm_num⟩
  · have hpr : processResponse cfg2 denv0 []
        { resp2c with XRPVersion := some "v1", XRPCache := some "MISS" } "text/html" =
        .ok (List.replicate 1048577 0) := by
      unfold processResponse
      norm_num [cfg2, resp2c, bigBody, List.take_replicate]
    rw [processAndCacheResponse_eq_of_ok _ _ _ _ _ _ _ hpr]
    rfl
  · intro h
    have h2 : (List.replicate 1048577 (0 : Nat)).length =
        (List.replicate 2097152 (0 : Nat)).length := congrArg List.length h
    rw [List.length_replicate, List.length_replicate] at h2
    norm_num at h2
  · unfold processResponseBytesRead
    norm_num [cfg2, resp2k, resp2c, bigBody]

end Xrp
